import Mathlib

/-
Verification of the telemetry-delivery state machine in src/src/main.c
(sht41_peripheral) against its natural-language specification.

The embedding is shallow: every definition below mirrors one function or
global of main.c. External collaborators (the BLE stack, the Zephyr
sensor API, k_timer / k_event) are modelled at their interface boundary:
the results they return to the core are inputs of the embedded functions,
and the calls the core makes to them (send_notification frames,
k_timer_start arguments, advertising stop) are recorded as outputs.
-/

/- Wire status bytes (main.c lines 35-37). -/
def NOTIFY_STATUS_OK : Nat := 0x00
def NOTIFY_STATUS_WAIT : Nat := 0x01
def NOTIFY_STATUS_ERROR : Nat := 0xff

/- Event bits of main_evts (main.c lines 29-33). -/
def MAIN_EVT_TIMER_EXPIRY : Nat := 0x01
def MAIN_EVT_BLE_RESP_RECEIVED : Nat := 0x02
def MAIN_EVT_BLE_NOTIFICATION_ENABLED : Nat := 0x04
def MAIN_EVT_BLE_CONNECTED : Nat := 0x08
def MAIN_EVT_BLE_DISCONNECTED : Nat := 0x10

/-- Zephyr K_SECONDS, in milliseconds. -/
def K_SECONDS (n : Nat) : Nat := n * 1000

/-- Zephyr K_MINUTES, in milliseconds. -/
def K_MINUTES (n : Nat) : Nat := n * 60 * 1000

/-- main.c line 39. -/
def TIMER_INTERVAL_MINUTES : Nat := 1

/-- High byte of a 16-bit two's-complement value, as computed by the C
expression (v >> 8) & 0xff on an int16_t operand: an arithmetic shift is
floor division by 256 (equal to Euclidean division, the Lean default, since
the divisor is positive) and the mask leaves the nonnegative residue
mod 256. -/
def hi8 (v : Int) : Nat := ((v / 256) % 256).toNat

/-- Low byte, the C expression v & 0xff: nonnegative residue mod 256. -/
def lo8 (v : Int) : Nat := (v % 256).toNat

/-- Decoding of a big-endian signed 16-bit quantity from its two bytes, the
inverse operation the spec requires of the peer (two's complement). -/
def decode_s16_be (hi lo : Nat) : Int :=
  if hi * 256 + lo < 32768 then (hi * 256 + lo : Int)
  else (hi * 256 + lo : Int) - 65536

/-- notify_central (main.c lines 268-305). Returns the list of frames the
function hands to send_notification together with the boolean result of the
function; send_ok is the transport result of the one send the function
performs (err of bt_gatt_notify equal to 0). A status other than the three
defined constants sends nothing and returns true, exactly as the C falls
through every branch. -/
def notify_central (status : Nat) (temp rh : Int) (send_ok : Bool) :
    List (List Nat) × Bool :=
  if status = NOTIFY_STATUS_OK then
    ([[NOTIFY_STATUS_OK, hi8 temp, lo8 temp, hi8 rh, lo8 rh]], send_ok)
  else if status = NOTIFY_STATUS_ERROR then
    ([[NOTIFY_STATUS_ERROR]], send_ok)
  else if status = NOTIFY_STATUS_WAIT then
    ([[NOTIFY_STATUS_WAIT]], send_ok)
  else
    ([], true)

/-- Arguments of a k_timer_start call on sensor_timer: delay and repeat
period in milliseconds. period = none models K_NO_WAIT, i.e. a one-shot
timer. -/
structure TimerSpec where
  delay : Nat
  period : Option Nat
deriving DecidableEq

/-- The global state a GATT callback can touch: the pending event mask of
main_evts and the last programmed sensor_timer schedule (none = the timer
was never started). -/
structure CallbackState where
  events : Nat
  timer : Option TimerSpec
deriving DecidableEq

/-- rx characteristic write handler rx_chr_written (main.c lines 116-135);
b is data[0], the first byte of the written buffer. The C function returns
len, which carries no information and is not modelled. The handler reads no
cycle state: its effect is the same whatever the Telemetry Cycle is doing. -/
def rx_chr_written (b : Nat) (s : CallbackState) : CallbackState :=
  if b = 0x00 then
    { events := s.events ||| MAIN_EVT_BLE_RESP_RECEIVED,
      timer := some { delay := K_MINUTES TIMER_INTERVAL_MINUTES,
                      period := some (K_MINUTES TIMER_INTERVAL_MINUTES) } }
  else if b = 0x01 then
    { s with timer := some { delay := K_SECONDS 1,
                             period := some (K_MINUTES TIMER_INTERVAL_MINUTES) } }
  else
    s

/-- CCC changed handler tx_chr_ccc_changed (main.c lines 143-154), acting on
the notifications_enabled flag and the pending event mask: a nonzero value
arms notifications and signals the event, zero disarms without an event. -/
def tx_chr_ccc_changed (value : Nat) (_flag : Bool) (events : Nat) :
    Bool × Nat :=
  if value ≠ 0 then (true, events ||| MAIN_EVT_BLE_NOTIFICATION_ENABLED)
  else (false, events)

/-- Results of the external calls one iteration of the while(1) loop of
main (main.c lines 421-484) can make, fixed up front. disable_mid_cycle
injects an asynchronous peer CCC write of 0 (tx_chr_ccc_changed with value
0) right after wait_for_notification_enable returns, before any send of the
iteration. -/
structure IterEnv where
  adv_start_ok : Bool
  conn_present : Bool
  connect_in_time : Bool
  arm_in_time : Bool
  disable_mid_cycle : Bool
  device_ready : Bool
  fetch_ok : Bool
  temp_fp : Int
  rh_fp : Int
  err_send_ok : Bool
  wait_send_ok : Bool
  ok_send_ok : Bool
  ack_in_time : Bool
  disconnect_ok : Bool
  disconnected_in_time : Bool
deriving DecidableEq

/-- One frame handed to send_notification, together with the value of the
notifications_enabled flag at the moment of the send (ghost observation:
the C code does not read the flag there). -/
structure SendEvt where
  frame : List Nat
  armed : Bool
deriving DecidableEq

/-- Observable effects of one loop iteration: frames handed to
send_notification in order, k_timer_start calls in order, and whether
stop_adv ran. -/
structure IterOut where
  sends : List SendEvt
  timer_starts : List TimerSpec
  adv_stopped : Bool
deriving DecidableEq

/-- wait_for_notification_enable (main.c lines 307-329), success as a Bool
(the C function returns 0 on success, -ETIMEDOUT on either timeout): the
connection must be present or arrive within 60 s, then the flag must be set
or the enable event arrive within 5 s. armed is notifications_enabled at
the time of the check. -/
def wait_for_notification_enable (armed : Bool) (e : IterEnv) : Bool :=
  (e.conn_present || e.connect_in_time) && (armed || e.arm_in_time)

/-- The tail of one loop iteration, from the sht41_init check on (main.c
lines 441-484): the part of the while(1) body that runs once
wait_for_notification_enable has succeeded. armed2 is the ghost value of
notifications_enabled during this stretch, recorded with each send; the C
code never reads the flag here, so armed2 steers nothing. -/
def cycle_body (armed2 : Bool) (e : IterEnv) : IterOut :=
  if e.device_ready = false then
    { sends := (notify_central NOTIFY_STATUS_ERROR 0 0 e.err_send_ok).1.map
                 (fun f => { frame := f, armed := armed2 }),
      timer_starts := [], adv_stopped := false }
  else if e.fetch_ok = false then
    { sends := (notify_central NOTIFY_STATUS_WAIT 0 0 e.wait_send_ok).1.map
                 (fun f => { frame := f, armed := armed2 }),
      timer_starts := [{ delay := K_SECONDS 5, period := none }],
      adv_stopped := false }
  else if (notify_central NOTIFY_STATUS_OK e.temp_fp e.rh_fp e.ok_send_ok).2 = false then
    { sends := (notify_central NOTIFY_STATUS_OK e.temp_fp e.rh_fp e.ok_send_ok).1.map
                 (fun f => { frame := f, armed := armed2 }),
      timer_starts := [{ delay := K_SECONDS 15, period := some (K_SECONDS 15) }],
      adv_stopped := false }
  else if e.ack_in_time = false then
    { sends := (notify_central NOTIFY_STATUS_OK e.temp_fp e.rh_fp e.ok_send_ok).1.map
                 (fun f => { frame := f, armed := armed2 }),
      timer_starts := [{ delay := K_SECONDS 15, period := some (K_SECONDS 15) }],
      adv_stopped := false }
  else if e.disconnect_ok = false then
    { sends := (notify_central NOTIFY_STATUS_OK e.temp_fp e.rh_fp e.ok_send_ok).1.map
                 (fun f => { frame := f, armed := armed2 }),
      timer_starts := [], adv_stopped := false }
  else if e.disconnected_in_time = false then
    { sends := (notify_central NOTIFY_STATUS_OK e.temp_fp e.rh_fp e.ok_send_ok).1.map
                 (fun f => { frame := f, armed := armed2 }),
      timer_starts := [], adv_stopped := false }
  else
    { sends := (notify_central NOTIFY_STATUS_OK e.temp_fp e.rh_fp e.ok_send_ok).1.map
                 (fun f => { frame := f, armed := armed2 }),
      timer_starts := [{ delay := K_SECONDS 15, period := none }],
      adv_stopped := true }

/-- One iteration of the while(1) body of main (main.c lines 421-484),
entered after the K_FOREVER wait on MAIN_EVT_TIMER_EXPIRY returned (that
wait cannot fail). armed0 is notifications_enabled on entry. The armed
ghost passed to cycle_body is computed by applying the embedded
tx_chr_ccc_changed handler along the path: the enable handler if the
arm-event path ran, then the injected disable if disable_mid_cycle. -/
def main_iteration (armed0 : Bool) (e : IterEnv) : IterOut :=
  if e.adv_start_ok = false then
    { sends := [], timer_starts := [], adv_stopped := false }
  else if wait_for_notification_enable armed0 e = false then
    { sends := [], timer_starts := [], adv_stopped := true }
  else
    cycle_body
      (if e.disable_mid_cycle then
        (tx_chr_ccc_changed 0
          (if armed0 then armed0 else (tx_chr_ccc_changed 1 armed0 0).1) 0).1
       else (if armed0 then armed0 else (tx_chr_ccc_changed 1 armed0 0).1))
      e

/-- A Zephyr sensor_value: integer part and 10^-6 fractional part. -/
structure sensor_value where
  val1 : Int
  val2 : Int
deriving DecidableEq

/-- sensor_value_to_double, modelled exactly over the rationals (the
atomicity claim about sht41_fetch_data does not depend on rounding). -/
def sensor_value_to_double (v : sensor_value) : ℚ := v.val1 + v.val2 / 1000000

/-- The global sht41_sensor_data (main.c lines 45-48, 94). -/
structure sht41_data where
  temp : ℚ
  rh : ℚ
deriving DecidableEq

/-- Results of the three Zephyr sensor calls sht41_fetch_data makes: the
return code of sensor_sample_fetch, and for each sensor_channel_get the
return code and the value written through the out-parameter (meaningful
when the code is 0). -/
structure FetchEnv where
  sample_fetch_ret : Int
  temp_get_ret : Int
  temp_val : sensor_value
  rh_get_ret : Int
  rh_val : sensor_value
deriving DecidableEq

/-- sht41_fetch_data (main.c lines 373-400): returns the int result and the
new value of the global sht41_sensor_data, given its prior value d. Each
failing step returns its error code at once; the two global fields are
assigned only after all three calls returned 0. -/
def sht41_fetch_data (env : FetchEnv) (d : sht41_data) : Int × sht41_data :=
  if env.sample_fetch_ret ≠ 0 then (env.sample_fetch_ret, d)
  else if env.temp_get_ret ≠ 0 then (env.temp_get_ret, d)
  else if env.rh_get_ret ≠ 0 then (env.rh_get_ret, d)
  else (0, { temp := sensor_value_to_double env.temp_val,
             rh := sensor_value_to_double env.rh_val })

/- ------------------------------------------------------------------ -/
/- Helper lemmas -/
/- ------------------------------------------------------------------ -/

/-- Big-endian two's-complement decoding inverts the byte split performed
by notify_central for any value representable in signed 16 bits. -/
theorem decode_encode_s16 (v : Int) (h1 : -32768 ≤ v) (h2 : v < 32768) :
    decode_s16_be (hi8 v) (lo8 v) = v := by
  unfold decode_s16_be hi8 lo8
  have h := Int.ediv_add_emod v 256
  generalize v / 256 = q at *
  split <;> omega

/-- main_iteration, with the armed ghost evaluated: after a successful
wait_for_notification_enable the flag is true (it either already was, or
the enable handler just set it), so the ghost reaching cycle_body is simply
the negation of the injected mid-cycle disable. -/
theorem main_iteration_eq (armed0 : Bool) (e : IterEnv) :
    main_iteration armed0 e
      = if e.adv_start_ok = false then
          { sends := [], timer_starts := [], adv_stopped := false }
        else if wait_for_notification_enable armed0 e = false then
          { sends := [], timer_starts := [], adv_stopped := true }
        else cycle_body (!e.disable_mid_cycle) e := by
  cases h : e.disable_mid_cycle <;> cases armed0 <;>
    simp [main_iteration, tx_chr_ccc_changed, h]

/-- wait_for_notification_enable does not read disable_mid_cycle. -/
theorem wfne_dm (armed0 b : Bool) (e : IterEnv) :
    wait_for_notification_enable armed0 { e with disable_mid_cycle := b }
      = wait_for_notification_enable armed0 e := rfl

/-- cycle_body does not read disable_mid_cycle. -/
theorem cycle_body_dm (a b : Bool) (e : IterEnv) :
    cycle_body a { e with disable_mid_cycle := b } = cycle_body a e := rfl

/-- Projection of the disable_mid_cycle update. -/
theorem adv_dm (b : Bool) (e : IterEnv) :
    ({ e with disable_mid_cycle := b } : IterEnv).adv_start_ok
      = e.adv_start_ok := rfl

/-- Projection of the disable_mid_cycle update. -/
theorem dm_dm (b : Bool) (e : IterEnv) :
    ({ e with disable_mid_cycle := b } : IterEnv).disable_mid_cycle = b := rfl

/-- The frames cycle_body hands to the transport do not depend on the
armed ghost: the C code consults no flag before its sends. -/
theorem cycle_body_frames (a b : Bool) (e : IterEnv) :
    (cycle_body a e).sends.map SendEvt.frame
      = (cycle_body b e).sends.map SendEvt.frame := by
  unfold cycle_body
  split_ifs <;> simp [List.map_map, Function.comp]

/-- Every send of cycle_body carries the armed ghost it was given. -/
theorem cycle_body_armed (a : Bool) (e : IterEnv) :
    ∀ se ∈ (cycle_body a e).sends, se.armed = a := by
  unfold cycle_body
  split_ifs <;> intro se hse <;> simp only [List.mem_map] at hse <;>
    obtain ⟨f, _, rfl⟩ := hse <;> rfl

/- ------------------------------------------------------------------ -/
/- Claim theorems -/
/- ------------------------------------------------------------------ -/

/-- Claim C1: for every (temperature, humidity) pair representable as
signed 16-bit fixed-point values, notify_central at status Ok hands the
transport exactly the 5-byte frame 0x00, tempHigh, tempLow, rhHigh, rhLow
in big-endian signed 16-bit, and decoding that frame reproduces the
original fixed-point values exactly. -/
theorem notify_central_ok_roundtrip (t rh : Int)
    (ht1 : -32768 ≤ t) (ht2 : t < 32768)
    (hr1 : -32768 ≤ rh) (hr2 : rh < 32768) :
    (notify_central NOTIFY_STATUS_OK t rh true).1
        = [[NOTIFY_STATUS_OK, hi8 t, lo8 t, hi8 rh, lo8 rh]]
      ∧ decode_s16_be (hi8 t) (lo8 t) = t
      ∧ decode_s16_be (hi8 rh) (lo8 rh) = rh := by
  refine ⟨?_, decode_encode_s16 t ht1 ht2, decode_encode_s16 rh hr1 hr2⟩
  simp [notify_central]

/-- Witness for C1 at the in-range pair (21.37 °C, 55.02 %RH), fixed-point
2137 and 5502. -/
theorem notify_central_ok_roundtrip_witness :
    (notify_central NOTIFY_STATUS_OK 2137 5502 true).1
        = [[NOTIFY_STATUS_OK, hi8 2137, lo8 2137, hi8 5502, lo8 5502]]
      ∧ decode_s16_be (hi8 2137) (lo8 2137) = 2137
      ∧ decode_s16_be (hi8 5502) (lo8 5502) = 5502 :=
  notify_central_ok_roundtrip 2137 5502 (by decide) (by decide)
    (by decide) (by decide)

/-- Counterexample to claim C2: an inbound write of 0x01 does not program a
one-shot 1-second timer; the k_timer_start call at main.c line 128 passes
K_MINUTES(TIMER_INTERVAL_MINUTES) as the repeat period, so the schedule is
delay 1 s with a repeating 1-minute period, not period = none. -/
theorem rx_retry_not_oneshot_cex :
    (rx_chr_written 0x01 { events := 0, timer := none }).timer
        = some { delay := K_SECONDS 1, period := some (K_MINUTES 1) }
      ∧ (rx_chr_written 0x01 { events := 0, timer := none }).timer
        ≠ some { delay := K_SECONDS 1, period := none } := by
  decide

/-- Claim C2 as amended: for every inbound peer write whose first byte is
0x01 (RetryRequest), the handler reprograms the Scheduler to delay = 1 s
with a repeating 1-minute period (K_MINUTES(TIMER_INTERVAL_MINUTES)), not a
one-shot. -/
theorem rx_retry_timer (s : CallbackState) :
    (rx_chr_written 0x01 s).timer
      = some { delay := K_SECONDS 1,
               period := some (K_MINUTES TIMER_INTERVAL_MINUTES) } := by
  simp [rx_chr_written]

/-- Environment for the C3 counterexample: the peer connects and arms, then
disarms mid-cycle, and the sensor device is not ready, so the Error frame
is pushed while notifications_enabled is false. -/
def envC3 : IterEnv :=
  { adv_start_ok := true, conn_present := false, connect_in_time := true,
    arm_in_time := true, disable_mid_cycle := true, device_ready := false,
    fetch_ok := true, temp_fp := 0, rh_fp := 0, err_send_ok := true,
    wait_send_ok := true, ok_send_ok := true, ack_in_time := true,
    disconnect_ok := true, disconnected_in_time := true }

/-- Counterexample to claim C3: it is not the case that every send of an
iteration happens with the NotificationsArmed flag true. The loop body
never reads notifications_enabled after wait_for_notification_enable, so a
peer disabling notifications mid-cycle does not stop the sends: in envC3
the Error frame is pushed with the flag false. -/
theorem send_while_disarmed_cex :
    ¬ (∀ (armed0 : Bool) (e : IterEnv) (se : SendEvt),
        se ∈ (main_iteration armed0 e).sends → se.armed = true) := by
  intro h
  have hmem : ({ frame := [NOTIFY_STATUS_ERROR], armed := false } : SendEvt)
      ∈ (main_iteration false envC3).sends := by decide
  have := h false envC3 { frame := [NOTIFY_STATUS_ERROR], armed := false } hmem
  simp at this

/-- Claim C3 as amended: the Telemetry Cycle checks the armed flag only on
entry (inside wait_for_notification_enable); its sends are not guarded by
the flag, so a peer disabling notifications mid-cycle does not stop the
sends of that iteration: the frames handed to the transport are the same
with and without the mid-cycle disable, and when the disable occurs every
such frame is pushed with the flag false. -/
theorem sends_ignore_armed_flag (armed0 : Bool) (e : IterEnv) :
    ((main_iteration armed0 { e with disable_mid_cycle := true }).sends.map
        SendEvt.frame
      = (main_iteration armed0 { e with disable_mid_cycle := false }).sends.map
        SendEvt.frame)
    ∧ (∀ se ∈ (main_iteration armed0 { e with disable_mid_cycle := true }).sends,
        se.armed = false) := by
  simp only [main_iteration_eq, wfne_dm, cycle_body_dm, adv_dm, dm_dm,
    Bool.not_true, Bool.not_false]
  constructor
  · split_ifs <;> first | rfl | exact cycle_body_frames false true e
  · split_ifs <;> first | exact cycle_body_armed false e | simp

/-- Witness for C3's amended theorem at the concrete environment envC3: the
frames are the same with and without the mid-cycle disable, and the Error
send that does occur under the disable carries the flag false. -/
theorem sends_ignore_armed_flag_witness :
    ((main_iteration false { envC3 with disable_mid_cycle := true }).sends.map
        SendEvt.frame
      = (main_iteration false { envC3 with disable_mid_cycle := false }).sends.map
        SendEvt.frame)
    ∧ ({ frame := [NOTIFY_STATUS_ERROR], armed := false } : SendEvt).armed
        = false :=
  ⟨(sends_ignore_armed_flag false envC3).1,
   (sends_ignore_armed_flag false envC3).2
     { frame := [NOTIFY_STATUS_ERROR], armed := false } (by decide)⟩

/-- Counterexample to claim C4: an inbound 0x00 write does have observable
effects whatever state the cycle is in (the handler reads no cycle state):
from a state with no pending events and a never-started timer, it leaves
the AckReceived event bit pending and reprograms the Scheduler to a 1-min
delay with a 1-min repeat period. -/
theorem rx_ack_effect_cex :
    (rx_chr_written 0x00 { events := 0, timer := none }).timer
        = some { delay := K_MINUTES 1, period := some (K_MINUTES 1) }
      ∧ (rx_chr_written 0x00 { events := 0, timer := none }).events
          &&& MAIN_EVT_BLE_RESP_RECEIVED ≠ 0
      ∧ rx_chr_written 0x00 { events := 0, timer := none }
          ≠ { events := 0, timer := none } := by
  decide

/-- Claim C4 as amended: an inbound peer write whose first byte is 0x00
always — in every cycle state, since rx_chr_written reads no cycle state —
signals the AckReceived event bit and reprograms the Scheduler to delay =
1 min with a repeating 1-min period; an ack arriving outside AwaitingAck is
therefore not ignored. -/
theorem rx_ack_always_reschedules (s : CallbackState) :
    rx_chr_written 0x00 s
      = { events := s.events ||| MAIN_EVT_BLE_RESP_RECEIVED,
          timer := some { delay := K_MINUTES TIMER_INTERVAL_MINUTES,
                          period := some (K_MINUTES TIMER_INTERVAL_MINUTES) } } := by
  simp [rx_chr_written]

/-- Counterexample to claim C5: an inbound 0x01 write does not signal the
AckReceived event bit (while a 0x00 write does): starting from an empty
event mask, after the 0x01 write the MAIN_EVT_BLE_RESP_RECEIVED bit is
still clear, so a cycle blocked on AckReceived is not woken. -/
theorem rx_retry_no_event_cex :
    (rx_chr_written 0x01 { events := 0, timer := none }).events
        &&& MAIN_EVT_BLE_RESP_RECEIVED = 0
      ∧ (rx_chr_written 0x00 { events := 0, timer := none }).events
          &&& MAIN_EVT_BLE_RESP_RECEIVED ≠ 0 := by
  decide

/-- Claim C5 as amended: for every inbound peer write whose first byte is
0x01, the handler leaves the pending event mask unchanged — it does not
signal AckReceived, and no received-code is recorded anywhere (the source
keeps no such variable) — and only reprograms the Scheduler to delay = 1 s
with a repeating 1-minute period; a Telemetry Cycle blocked on AckReceived
is not woken by a RetryRequest. -/
theorem rx_retry_events_unchanged (s : CallbackState) :
    (rx_chr_written 0x01 s).events = s.events
      ∧ (rx_chr_written 0x01 s).timer
        = some { delay := K_SECONDS 1,
                 period := some (K_MINUTES TIMER_INTERVAL_MINUTES) } := by
  simp [rx_chr_written]

/-- Claim C6: whenever the Ok notification push succeeds and the 5-second
wait for AckReceived expires without the event, the iteration makes exactly
one k_timer_start call, programming delay = 15 s with a repeating 15-second
period, and abandons back to the top of the loop. -/
theorem ack_timeout_reschedules (armed0 : Bool) (e : IterEnv)
    (h1 : e.adv_start_ok = true)
    (h2 : wait_for_notification_enable armed0 e = true)
    (h3 : e.device_ready = true)
    (h4 : e.fetch_ok = true)
    (h5 : e.ok_send_ok = true)
    (h6 : e.ack_in_time = false) :
    (main_iteration armed0 e).timer_starts
      = [{ delay := K_SECONDS 15, period := some (K_SECONDS 15) }] := by
  simp [main_iteration, cycle_body, notify_central, h1, h2, h3, h4, h5, h6]

/-- Environment for the C6 witness: everything succeeds up to the ack wait,
which times out. -/
def envC6 : IterEnv :=
  { adv_start_ok := true, conn_present := true, connect_in_time := false,
    arm_in_time := false, disable_mid_cycle := false, device_ready := true,
    fetch_ok := true, temp_fp := 2137, rh_fp := 5502, err_send_ok := true,
    wait_send_ok := true, ok_send_ok := true, ack_in_time := false,
    disconnect_ok := true, disconnected_in_time := true }

/-- Witness for C6 at the concrete environment envC6. -/
theorem ack_timeout_reschedules_witness :
    (main_iteration true envC6).timer_starts
      = [{ delay := K_SECONDS 15, period := some (K_SECONDS 15) }] :=
  ack_timeout_reschedules true envC6 rfl rfl rfl rfl rfl rfl

/-- Claim C7: whenever the sensor fetch fails, the iteration hands the
transport exactly one frame, the single-byte Wait status 0x01, makes
exactly one k_timer_start call programming a one-shot 5-second delay
(period = none, i.e. K_NO_WAIT), and abandons back to the top of the
loop. -/
theorem fetch_fail_wait_oneshot5 (armed0 : Bool) (e : IterEnv)
    (h1 : e.adv_start_ok = true)
    (h2 : wait_for_notification_enable armed0 e = true)
    (h3 : e.device_ready = true)
    (h4 : e.fetch_ok = false) :
    (main_iteration armed0 e).sends.map SendEvt.frame = [[NOTIFY_STATUS_WAIT]]
      ∧ (main_iteration armed0 e).timer_starts
        = [{ delay := K_SECONDS 5, period := none }] := by
  simp [main_iteration, cycle_body, notify_central, h1, h2, h3, h4, NOTIFY_STATUS_WAIT,
    NOTIFY_STATUS_OK, NOTIFY_STATUS_ERROR]

/-- Environment for the C7 witness: connected and armed, device ready, the
fetch fails. -/
def envC7 : IterEnv :=
  { adv_start_ok := true, conn_present := true, connect_in_time := false,
    arm_in_time := false, disable_mid_cycle := false, device_ready := true,
    fetch_ok := false, temp_fp := 0, rh_fp := 0, err_send_ok := true,
    wait_send_ok := true, ok_send_ok := true, ack_in_time := true,
    disconnect_ok := true, disconnected_in_time := true }

/-- Witness for C7 at the concrete environment envC7. -/
theorem fetch_fail_wait_oneshot5_witness :
    (main_iteration true envC7).sends.map SendEvt.frame = [[NOTIFY_STATUS_WAIT]]
      ∧ (main_iteration true envC7).timer_starts
        = [{ delay := K_SECONDS 5, period := none }] :=
  fetch_fail_wait_oneshot5 true envC7 rfl rfl rfl rfl

/-- Claim C8: whenever a peer is connected (already present or arriving in
time) but notifications are not armed and the enable event does not arrive
within its 5-second timeout, the iteration performs no send, makes no
k_timer_start call, and stops discoverability. -/
theorem arm_timeout_silent (e : IterEnv)
    (h1 : e.adv_start_ok = true)
    (h2 : (e.conn_present || e.connect_in_time) = true)
    (h3 : e.arm_in_time = false) :
    main_iteration false e
      = { sends := [], timer_starts := [], adv_stopped := true } := by
  simp [main_iteration, cycle_body, wait_for_notification_enable, h1, h2, h3]

/-- Environment for the C8 witness: connected, never arms. -/
def envC8 : IterEnv :=
  { adv_start_ok := true, conn_present := true, connect_in_time := false,
    arm_in_time := false, disable_mid_cycle := false, device_ready := true,
    fetch_ok := true, temp_fp := 0, rh_fp := 0, err_send_ok := true,
    wait_send_ok := true, ok_send_ok := true, ack_in_time := true,
    disconnect_ok := true, disconnected_in_time := true }

/-- Witness for C8 at the concrete environment envC8. -/
theorem arm_timeout_silent_witness :
    main_iteration false envC8
      = { sends := [], timer_starts := [], adv_stopped := true } :=
  arm_timeout_silent envC8 rfl rfl rfl

/-- Claim C9: whenever the sensor device is not ready, the iteration hands
the transport exactly one frame, the single-byte Error status 0xff
(best-effort: the notify result is ignored), makes no k_timer_start call,
and abandons back to the top of the loop relying on the previously armed
schedule. -/
theorem sensor_not_ready_error (armed0 : Bool) (e : IterEnv)
    (h1 : e.adv_start_ok = true)
    (h2 : wait_for_notification_enable armed0 e = true)
    (h3 : e.device_ready = false) :
    (main_iteration armed0 e).sends.map SendEvt.frame = [[NOTIFY_STATUS_ERROR]]
      ∧ (main_iteration armed0 e).timer_starts = [] := by
  simp [main_iteration, cycle_body, notify_central, h1, h2, h3, NOTIFY_STATUS_WAIT,
    NOTIFY_STATUS_OK, NOTIFY_STATUS_ERROR]

/-- Environment for the C9 witness: connected and armed, the device is not
ready, and the transport would even fail the best-effort Error send (its
result is ignored by main). -/
def envC9 : IterEnv :=
  { adv_start_ok := true, conn_present := true, connect_in_time := false,
    arm_in_time := false, disable_mid_cycle := false, device_ready := false,
    fetch_ok := true, temp_fp := 0, rh_fp := 0, err_send_ok := false,
    wait_send_ok := true, ok_send_ok := true, ack_in_time := true,
    disconnect_ok := true, disconnected_in_time := true }

/-- Witness for C9 at the concrete environment envC9. -/
theorem sensor_not_ready_error_witness :
    (main_iteration true envC9).sends.map SendEvt.frame = [[NOTIFY_STATUS_ERROR]]
      ∧ (main_iteration true envC9).timer_starts = [] :=
  sensor_not_ready_error true envC9 rfl rfl rfl

/-- Claim C10: sht41_fetch_data is atomic on error: whenever it returns a
nonzero code, the stored sensor reading is exactly what it was before the
call, and when it returns 0 all three steps succeeded and both fields hold
the freshly converted values. -/
theorem sht41_fetch_data_atomic (env : FetchEnv) (d : sht41_data) :
    ((sht41_fetch_data env d).1 ≠ 0 → (sht41_fetch_data env d).2 = d)
      ∧ ((sht41_fetch_data env d).1 = 0 →
          env.sample_fetch_ret = 0 ∧ env.temp_get_ret = 0 ∧ env.rh_get_ret = 0
            ∧ (sht41_fetch_data env d).2
              = { temp := sensor_value_to_double env.temp_val,
                  rh := sensor_value_to_double env.rh_val }) := by
  unfold sht41_fetch_data
  split_ifs <;> simp_all

/-- Witness for C10: a failing sample fetch (code 5) leaves a concrete
stored reading untouched. -/
theorem sht41_fetch_data_atomic_witness :
    (sht41_fetch_data
        { sample_fetch_ret := 5, temp_get_ret := 0, temp_val := { val1 := 1, val2 := 0 },
          rh_get_ret := 0, rh_val := { val1 := 2, val2 := 0 } }
        { temp := 21, rh := 55 }).2
      = { temp := 21, rh := 55 } :=
  (sht41_fetch_data_atomic
      { sample_fetch_ret := 5, temp_get_ret := 0, temp_val := { val1 := 1, val2 := 0 },
        rh_get_ret := 0, rh_val := { val1 := 2, val2 := 0 } }
      { temp := 21, rh := 55 }).1 (by decide)
